import Mathlib

/-!
Verification of the Tauri command bridge in `src/builds/tauri/src/main.rs`.

The Rust program exposes four commands to the front end:
`get_platform`, `get_version`, `read_file`, `write_file`.
`get_platform` and `get_version` are pure functions of compile-time
constants; `read_file` and `write_file` act on the host filesystem, which
we embed as an explicit state value threaded through the operations.
-/

/-- The target operating-system families for which the Rust compile-time
constant `std::env::consts::OS` is defined. -/
inductive TargetOS where
  | linux
  | macos
  | ios
  | freebsd
  | dragonfly
  | netbsd
  | openbsd
  | solaris
  | android
  | windows
  deriving DecidableEq, Repr

/-- The string value of `std::env::consts::OS` on each target. -/
def TargetOS.osConst : TargetOS → String
  | .linux => "linux"
  | .macos => "macos"
  | .ios => "ios"
  | .freebsd => "freebsd"
  | .dragonfly => "dragonfly"
  | .netbsd => "netbsd"
  | .openbsd => "openbsd"
  | .solaris => "solaris"
  | .android => "android"
  | .windows => "windows"

/-- The closed set of possible values of `std::env::consts::OS`. -/
def knownOSList : List String :=
  ["linux", "macos", "ios", "freebsd", "dragonfly", "netbsd", "openbsd",
   "solaris", "android", "windows"]

/-- Compile-time inputs baked into the binary: the target OS and the
optional `CARGO_PKG_VERSION` environment variable captured by
`option_env!`. -/
structure BuildEnv where
  os : TargetOS
  cargoPkgVersion : Option String

/-- `fn get_platform() -> String { std::env::consts::OS.to_string() }` -/
def get_platform (env : BuildEnv) : String :=
  env.os.osConst

/-- `fn get_version() -> String` from main.rs:
`option_env!("CARGO_PKG_VERSION").unwrap_or("1.0.0")`, then `to_string`. -/
def get_version (env : BuildEnv) : String :=
  (env.cargoPkgVersion.getD "1.0.0")

/-- The state of one filesystem entry as observed by
`std::fs::read_to_string`: a regular readable file with valid UTF-8 bytes,
a regular readable file whose bytes are not valid UTF-8, or a file whose
permissions deny reading. -/
inductive FsEntry where
  | textFile (content : String)
  | binaryFile
  | unreadable
  deriving DecidableEq, Repr

/-- The host filesystem: a finite map from paths to entries, together
with the set of paths at which `std::fs::write` fails (permission denial
or invalid/unreachable path such as a missing parent directory). -/
structure FS where
  entries : List (String × FsEntry)
  writeDenied : List String
  deriving DecidableEq, Repr

/-- Look up the entry stored at a path. -/
def FS.lookup (fs : FS) (p : String) : Option FsEntry :=
  fs.entries.lookup p

/-- Store an entry at a path, replacing any previous entry there. -/
def FS.insert (fs : FS) (p : String) (e : FsEntry) : FS :=
  { fs with entries := (p, e) :: fs.entries.filter (fun q => q.1 != p) }

/-- `fn read_file(path: String) -> Result<String, String>` from main.rs:
`std::fs::read_to_string(path).map_err(|e| e.to_string())`. The error
branches carry the `to_string` rendering of the corresponding
`std::io::Error`. -/
def read_file (fs : FS) (path : String) : Except String String :=
  match fs.lookup path with
  | none => .error "No such file or directory (os error 2)"
  | some (.textFile c) => .ok c
  | some .binaryFile => .error "stream did not contain valid UTF-8"
  | some .unreadable => .error "Permission denied (os error 13)"

/-- `fn write_file(path: String, content: String) -> Result<(), String>`
from main.rs: `std::fs::write(path, content).map_err(|e| e.to_string())`.
`std::fs::write` creates the file if absent and truncates it before
writing, so on success the entry at the path is exactly the new content.
Returns the result together with the filesystem after the call. -/
def write_file (fs : FS) (path content : String) :
    Except String Unit × FS :=
  if path ∈ fs.writeDenied then
    (.error "Permission denied (os error 13)", fs)
  else
    (.ok (), fs.insert path (.textFile content))

/-- An invocation request from the front end: a command name and its
positional string arguments. -/
structure Request where
  cmd : String
  args : List String
  deriving DecidableEq, Repr

/-- A success value crossing the bridge: a string (platform, version or
file content) or no value (`write_file`). -/
inductive InvokeValue where
  | str (s : String)
  | unit
  deriving DecidableEq, Repr

/-- The error taxonomy of the bridge: unknown command name, argument
shape mismatch, or a failure raised by a handler (an `IOError` rendered
as a string). -/
inductive InvokeError where
  | unknownCommand (name : String)
  | argumentError (name : String)
  | handlerError (msg : String)
  deriving DecidableEq, Repr

/-- The command names registered in `main` via
`tauri::generate_handler![get_platform, get_version, read_file,
write_file]`. -/
def registeredCommands : List String :=
  ["get_platform", "get_version", "read_file", "write_file"]

/-- Modelled from the spec: the invocation dispatcher that
`tauri::Builder::default().invoke_handler(...)` installs in `main` is
framework code not present in this repository; per the spec it resolves
the request name against the registered commands, returns
`UnknownCommand` without invoking anything when resolution fails,
returns `ArgumentError` when the argument shape mismatches, and
otherwise invokes the handler and converts its outcome into a result
with exactly one of a success value or an error populated. The handler
bodies invoked are the four functions above, taken from main.rs. -/
def dispatch (env : BuildEnv) (fs : FS) (req : Request) :
    Except InvokeError InvokeValue × FS :=
  if req.cmd = "get_platform" then
    match req.args with
    | [] => (.ok (.str (get_platform env)), fs)
    | _ => (.error (.argumentError req.cmd), fs)
  else if req.cmd = "get_version" then
    match req.args with
    | [] => (.ok (.str (get_version env)), fs)
    | _ => (.error (.argumentError req.cmd), fs)
  else if req.cmd = "read_file" then
    match req.args with
    | [path] =>
      (match read_file fs path with
       | .ok c => (.ok (.str c), fs)
       | .error e => (.error (.handlerError e), fs))
    | _ => (.error (.argumentError req.cmd), fs)
  else if req.cmd = "write_file" then
    match req.args with
    | [path, content] =>
      (match write_file fs path content with
       | (.ok _, fs1) => (.ok .unit, fs1)
       | (.error e, fs1) => (.error (.handlerError e), fs1))
    | _ => (.error (.argumentError req.cmd), fs)
  else
    (.error (.unknownCommand req.cmd), fs)

/-! ## Helper lemmas about the filesystem map -/

theorem lookup_filter_keyNe (l : List (String × FsEntry)) (p q : String)
    (h : q ≠ p) :
    (l.filter (fun x => x.1 != p)).lookup q = l.lookup q := by
  induction l with
  | nil => rfl
  | cons a l ih =>
    obtain ⟨k, v⟩ := a
    by_cases hk : k = p
    · subst hk
      have hq : (q == k) = false := by
        simp [beq_eq_false_iff_ne, h]
      simp [List.filter, List.lookup, hq, ih]
    · have hk2 : (k != p) = true := by
        simp [bne_iff_ne, hk]
      by_cases hq : q = k
      · subst hq
        simp [List.filter, hk2, List.lookup]
      · have hq2 : (q == k) = false := by
          simp [beq_eq_false_iff_ne, hq]
        simp [List.filter, hk2, List.lookup, hq2, ih]

theorem FS.lookup_insert_self (fs : FS) (p : String) (e : FsEntry) :
    (fs.insert p e).lookup p = some e := by
  simp [FS.insert, FS.lookup, List.lookup]

theorem FS.lookup_insert_other (fs : FS) (p q : String) (e : FsEntry)
    (h : q ≠ p) :
    (fs.insert p e).lookup q = fs.lookup q := by
  have hq : (q == p) = false := by
    simp [beq_eq_false_iff_ne, h]
  simp [FS.insert, FS.lookup, List.lookup, hq, lookup_filter_keyNe _ _ _ h]

/-! ## Concrete states used to instantiate the theorems -/

/-- A filesystem holding one readable text file and no write denials. -/
def fsSample : FS :=
  { entries := [("/tmp/a.txt", .textFile "hello")], writeDenied := [] }

/-- A filesystem where writing under a missing parent directory fails. -/
def fsDenied : FS :=
  { entries := [], writeDenied := ["/no/such/dir/b.txt"] }

/-! ## Claim theorems -/

/-- C1: for every path P and content C, a successful `write_file(P, C)`
followed by `read_file(P)` returns success with exactly the string C. -/
theorem write_read_round_trip (fs : FS) (path content : String)
    (h : (write_file fs path content).1 = .ok ()) :
    read_file (write_file fs path content).2 path = .ok content := by
  unfold write_file at h ⊢
  by_cases hd : path ∈ fs.writeDenied
  · simp [hd] at h
  · simp only [hd, if_neg, if_false]
    simp [read_file, FS.lookup_insert_self]

/-- C1 witness: writing "hello" to "/tmp/a.txt" on an empty filesystem
succeeds and reading it back yields "hello". -/
theorem write_read_round_trip_witness :
    read_file (write_file ⟨[], []⟩ "/tmp/a.txt" "hello").2 "/tmp/a.txt"
      = .ok "hello" :=
  write_read_round_trip ⟨[], []⟩ "/tmp/a.txt" "hello" rfl

/-- C2: `read_file(P)` returns an error string exactly when the path is
absent, unreadable, or its bytes are not valid text, and otherwise
returns success with the full content; it is a total function (it never
terminates the host process). -/
theorem read_file_spec (fs : FS) (path : String) :
    ((∃ e, read_file fs path = .error e) ↔
      (fs.lookup path = none ∨ fs.lookup path = some .binaryFile ∨
       fs.lookup path = some .unreadable)) ∧
    (∀ c, fs.lookup path = some (.textFile c) →
       read_file fs path = .ok c) := by
  unfold read_file
  cases h : fs.lookup path with
  | none => simp
  | some e => cases e <;> simp

/-- C2 witness: on `fsSample`, reading a missing path yields an error and
reading the stored text file yields its content. -/
theorem read_file_spec_witness :
    (∃ e, read_file fsSample "/tmp/missing.txt" = .error e) ∧
    read_file fsSample "/tmp/a.txt" = .ok "hello" :=
  ⟨(read_file_spec fsSample "/tmp/missing.txt").1.mpr (by decide),
   (read_file_spec fsSample "/tmp/a.txt").2 "hello" (by decide)⟩

/-- C3: `write_file(P, C)` creates the file at P if absent and otherwise
replaces its entire content with C, leaving every other path untouched,
and fails with an IOError string, leaving the filesystem unchanged, when
the write is denied (permission denial or invalid/unreachable path). -/
theorem write_file_spec (fs : FS) (path content : String) :
    (path ∈ fs.writeDenied →
       (write_file fs path content).1
         = .error "Permission denied (os error 13)" ∧
       (write_file fs path content).2 = fs) ∧
    (path ∉ fs.writeDenied →
       (write_file fs path content).1 = .ok () ∧
       (write_file fs path content).2.lookup path
         = some (.textFile content) ∧
       ∀ q, q ≠ path →
         (write_file fs path content).2.lookup q = fs.lookup q) := by
  constructor
  · intro hd
    simp [write_file, hd]
  · intro hd
    refine ⟨by simp [write_file, hd], by simp [write_file, hd, FS.lookup_insert_self], ?_⟩
    intro q hq
    simp [write_file, hd, FS.lookup_insert_other _ _ _ _ hq]

/-- C3 witness: on `fsSample` the write to "/tmp/a.txt" replaces the old
content in full, and on `fsDenied` the write to the denied path fails and
leaves the state unchanged. -/
theorem write_file_spec_witness :
    (write_file fsSample "/tmp/a.txt" "bye").2.lookup "/tmp/a.txt"
      = some (.textFile "bye") ∧
    (write_file fsDenied "/no/such/dir/b.txt" "x").1
      = .error "Permission denied (os error 13)" :=
  ⟨((write_file_spec fsSample "/tmp/a.txt" "bye").2 (by decide)).2.1,
   ((write_file_spec fsDenied "/no/such/dir/b.txt" "x").1 (by decide)).1⟩

/-- C4: `get_platform()` always succeeds with a string from the closed
set of supported OS families, and performs no side effect (the
filesystem state is returned unchanged by its dispatch). -/
theorem get_platform_spec (env : BuildEnv) (fs : FS) :
    (dispatch env fs ⟨"get_platform", []⟩).1
      = .ok (.str (get_platform env)) ∧
    (dispatch env fs ⟨"get_platform", []⟩).2 = fs ∧
    get_platform env ∈ knownOSList := by
  refine ⟨by simp [dispatch], by simp [dispatch], ?_⟩
  obtain ⟨os, v⟩ := env
  cases os <;> simp [get_platform, TargetOS.osConst, knownOSList]

/-- C5: `get_version()` always succeeds with no side effect; it returns
the baked-in version when one is present, and the fixed non-empty
fallback "1.0.0" when none was baked in. -/
theorem get_version_spec (env : BuildEnv) (fs : FS) :
    (dispatch env fs ⟨"get_version", []⟩).1
      = .ok (.str (get_version env)) ∧
    (dispatch env fs ⟨"get_version", []⟩).2 = fs ∧
    (∀ v, env.cargoPkgVersion = some v → get_version env = v) ∧
    (env.cargoPkgVersion = none →
       get_version env = "1.0.0" ∧ get_version env ≠ "") := by
  refine ⟨by simp [dispatch], by simp [dispatch], ?_, ?_⟩
  · intro v hv
    simp [get_version, hv]
  · intro hn
    simp [get_version, hn]

/-- C5 witness: with no baked-in version, dispatching `get_version` on a
concrete build returns the non-empty fallback "1.0.0". -/
theorem get_version_spec_witness :
    get_version ⟨TargetOS.linux, none⟩ = "1.0.0" ∧
    get_version ⟨TargetOS.linux, none⟩ ≠ "" :=
  (get_version_spec ⟨TargetOS.linux, none⟩ fsSample).2.2.2 rfl

/-- C6: dispatching any request whose command name is not one of the
four registered commands returns an `UnknownCommand` error and leaves
the filesystem state exactly as it was (no handler runs, no side
effect). -/
theorem dispatch_unknown_command (env : BuildEnv) (fs : FS)
    (req : Request) (h : req.cmd ∉ registeredCommands) :
    dispatch env fs req = (.error (.unknownCommand req.cmd), fs) := by
  simp only [registeredCommands, List.mem_cons, List.not_mem_nil,
    or_false, not_or] at h
  obtain ⟨h1, h2, h3, h4⟩ := h
  simp [dispatch, h1, h2, h3, h4]

/-- C6 witness: the unregistered command "delete_file" yields
`UnknownCommand` and an unchanged state on a concrete build and
filesystem. -/
theorem dispatch_unknown_command_witness :
    dispatch ⟨TargetOS.linux, none⟩ fsSample ⟨"delete_file", []⟩
      = (.error (.unknownCommand "delete_file"), fsSample) :=
  dispatch_unknown_command ⟨TargetOS.linux, none⟩ fsSample
    ⟨"delete_file", []⟩ (by decide)

/-- C7: every dispatched request yields a result with exactly one of the
two variants populated: either a success value or an error, never both
and never neither. -/
theorem dispatch_exactly_one_variant (env : BuildEnv) (fs : FS)
    (req : Request) :
    ((∃ v, (dispatch env fs req).1 = .ok v) ∧
       ¬ ∃ e, (dispatch env fs req).1 = .error e) ∨
    ((∃ e, (dispatch env fs req).1 = .error e) ∧
       ¬ ∃ v, (dispatch env fs req).1 = .ok v) := by
  cases h : (dispatch env fs req).1 with
  | ok v => exact Or.inl ⟨⟨v, rfl⟩, by simp⟩
  | error e => exact Or.inr ⟨⟨e, rfl⟩, by simp⟩

/-- C9: `get_platform` and `get_version` are deterministic within one
build: their dispatched results are identical across any two runtime
filesystem states, depending only on the compile-time build inputs. -/
theorem build_queries_deterministic (env : BuildEnv) (fs1 fs2 : FS) :
    (dispatch env fs1 ⟨"get_platform", []⟩).1
      = (dispatch env fs2 ⟨"get_platform", []⟩).1 ∧
    (dispatch env fs1 ⟨"get_version", []⟩).1
      = (dispatch env fs2 ⟨"get_version", []⟩).1 := by
  simp [dispatch]

/-- C10: when no `CARGO_PKG_VERSION` was supplied at compile time,
`get_version()` returns exactly "1.0.0". -/
theorem get_version_fallback_value (os : TargetOS) :
    get_version ⟨os, none⟩ = "1.0.0" := rfl
